import Mathlib

/-!
Verification development for the Calance-Workflow repository: a shallow
embedding of the workflow template renderer (internal/infrastructure/template),
the GitHub gateway client (internal/infrastructure/github) and the workflow
domain service (internal/domain/workflow), together with theorems settling the
specification claims.

Go strings are modelled as lists of characters (`GoStr`); Go's
`strings.Split(s, "\n")` is `List.splitOn '\n'` and `strings.Join(ls, "\n")`
is `List.intercalate ['\n']`.  Stateful orchestration is modelled by passing
a scripted gateway environment (one HTTP response per outgoing call) and
returning, next to the result, the ordered list of gateway calls that were
made, so that sequencing claims can be stated.
-/

namespace CalanceWorkflow

/-- Go strings, modelled as lists of characters. -/
abbrev GoStr := List Char

/-- Join a list of lines with the newline separator (Go `strings.Join(ls, "\n")`). -/
def goJoin (ls : List GoStr) : GoStr :=
  List.intercalate ['\n'] ls

/-- Split a string at newline characters (Go `strings.Split(s, "\n")`). -/
def goLines (s : GoStr) : List GoStr :=
  s.splitOn '\n'

/-- Go `strings.HasPrefix`. -/
def goHasPre (pre s : GoStr) : Bool :=
  List.isPrefixOf pre s

/-- Go `strings.HasSuffix`. -/
def goHasSuf (suf s : GoStr) : Bool :=
  List.isSuffixOf suf s

/-- Go `strings.TrimSuffix`: drop `suf` from the end of `s` when present. -/
def goTrimSuf (s suf : GoStr) : GoStr :=
  if goHasSuf suf s then s.take (s.length - suf.length) else s

/-- Decimal rendering of an integer (Go `fmt.Sprintf("%d", n)`). -/
def intStr (n : Int) : GoStr :=
  (toString n).toList

/-- Decimal rendering of a natural number. -/
def natStr (n : Nat) : GoStr :=
  (toString n).toList

/-!
## Error values

`GoErr` mirrors the error values of the Go code: the sentinel errors declared
with `errors.New` in internal/infrastructure/github/errors.go and
internal/domain/workflow/errors.go, ad-hoc errors built with `fmt.Errorf`
without `%w` (`plain`), and the two wrapping shapes used by the code:
`fmt.Errorf("ctx: %w", err)` (`wrap`) and `fmt.Errorf("%w: %s", err, msg)`
(`wrapMsg`).  `errIs` is Go's `errors.Is`, following the unwrap chain.
-/

inductive GoErr where
  | unauthorized : GoErr
  | forbidden : GoErr
  | notFound : GoErr
  | apiFailed : GoErr
  | errEC2CommonFieldsRequired : GoErr
  | errEC2ProjectsRequired : GoErr
  | errKubernetesCommonFieldsRequired : GoErr
  | errKubernetesProjectsRequired : GoErr
  | errInvalidWorkflowName : GoErr
  | errInvalidDeploymentType : GoErr
  | errTemplateGenerationFailed : GoErr
  | plain (msg : GoStr) : GoErr
  | wrap (ctx : GoStr) (inner : GoErr) : GoErr
  | wrapMsg (inner : GoErr) (msg : GoStr) : GoErr
deriving DecidableEq, Repr

deriving instance DecidableEq for Except

/-- Go `errors.Is`: structural equality or a match somewhere down the unwrap
chain of `wrap` / `wrapMsg` wrappers. -/
def errIs : GoErr → GoErr → Bool
  | e@(GoErr.wrap _ inner), target => e = target || errIs inner target
  | e@(GoErr.wrapMsg inner _), target => e = target || errIs inner target
  | e, target => e = target

/-!
## HTTP transport layer (internal/pkg/http)

An `HttpResp` carries the status code and raw body of a gateway response,
plus the payload values the client would obtain by JSON-decoding the body
(`parseOk` is false when `UnmarshalJSON` would fail, `b64Ok` is false when
the base64 decode of a content payload would fail).  A `DoRes` is the result
of one `Client.doRequest` call: either a transport failure or a response.
-/

structure ContentEntry where
  name : GoStr
  path : GoStr
  sha : GoStr
  size : Nat
  htmlURL : GoStr
  downloadURL : GoStr
  typ : GoStr
deriving DecidableEq, Repr

structure HttpResp where
  statusCode : Nat
  body : GoStr
  parseOk : Bool
  defaultBranch : GoStr
  refSHA : GoStr
  prHTMLURL : GoStr
  prNumber : Int
  entries : List ContentEntry
  fileText : GoStr
  fileSHA : GoStr
  b64Ok : Bool
deriving DecidableEq, Repr

inductive DoRes where
  | netFail (msg : GoStr) : DoRes
  | resp (r : HttpResp) : DoRes
deriving DecidableEq, Repr

/-- `Response.IsSuccess`: the status code is in the 2xx range. -/
def isSuccess (r : HttpResp) : Bool :=
  200 ≤ r.statusCode && r.statusCode < 300

/-- `Response.GetErrorMessage`: `fmt.Sprintf("status %d: %s", code, body)`. -/
def getErrorMessage (r : HttpResp) : GoStr :=
  ("status ".toList) ++ natStr r.statusCode ++ (": ".toList) ++ r.body

/-- The error produced by `Response.UnmarshalJSON` on a decode failure
(`fmt.Errorf("failed to unmarshal response: %w", err)`). -/
def unmarshalErr : GoErr :=
  GoErr.wrap ("failed to unmarshal response".toList) (GoErr.plain [])

/-- `Client.doRequest`: a transport failure is wrapped as
`fmt.Errorf("github api request failed: %w", err)`. -/
def doRequestM (d : DoRes) : Except GoErr HttpResp :=
  match d with
  | DoRes.netFail m =>
      Except.error (GoErr.wrap ("github api request failed".toList) (GoErr.plain m))
  | DoRes.resp r => Except.ok r

/-- `checkResponse` (internal/infrastructure/github/client.go): success maps to
no error, 401/403/404 map to sentinel errors, everything else to
`fmt.Errorf("%w: %s", ErrAPIFailed, resp.GetErrorMessage())`. -/
def checkResponse (r : HttpResp) : Option GoErr :=
  if isSuccess r then none
  else if r.statusCode = 401 then some GoErr.unauthorized
  else if r.statusCode = 403 then some GoErr.forbidden
  else if r.statusCode = 404 then some GoErr.notFound
  else some (GoErr.wrapMsg GoErr.apiFailed (getErrorMessage r))

/-!
## Gateway client operations (internal/infrastructure/github/workflow.go)

Each operation of `WorkflowClient` is a function of the scripted result of
its single `doRequest` call.
-/

/-- `WorkflowClient.VerifyRepository`: `GET /repos/{owner}/{repo}` then
`checkResponse`. -/
def verifyRepositoryM (d : DoRes) : Except GoErr Unit :=
  match doRequestM d with
  | Except.error e => Except.error e
  | Except.ok r =>
      match checkResponse r with
      | some e => Except.error e
      | none => Except.ok ()

/-- `WorkflowClient.GetDefaultBranch`: `GET /repos/{owner}/{repo}`,
`checkResponse`, then decode the repository metadata. -/
def getDefaultBranchM (d : DoRes) : Except GoErr GoStr :=
  match doRequestM d with
  | Except.error e => Except.error e
  | Except.ok r =>
      match checkResponse r with
      | some e => Except.error e
      | none => if r.parseOk then Except.ok r.defaultBranch else Except.error unmarshalErr

/-- `WorkflowClient.GetBranchSHA`: `GET /repos/{owner}/{repo}/git/refs/heads/{branch}`,
`checkResponse`, then decode `{object.sha}`. -/
def getBranchSHAM (d : DoRes) : Except GoErr GoStr :=
  match doRequestM d with
  | Except.error e => Except.error e
  | Except.ok r =>
      match checkResponse r with
      | some e => Except.error e
      | none => if r.parseOk then Except.ok r.refSHA else Except.error unmarshalErr

/-- `WorkflowClient.CreateBranch`: `POST /repos/{owner}/{repo}/git/refs`; any
status other than 201 yields `fmt.Errorf("failed to create branch: %s", msg)`. -/
def createBranchM (d : DoRes) : Except GoErr Unit :=
  match doRequestM d with
  | Except.error e => Except.error e
  | Except.ok r =>
      if r.statusCode = 201 then Except.ok ()
      else Except.error (GoErr.plain (("failed to create branch: ".toList) ++ getErrorMessage r))

/-- `WorkflowClient.CreateFile`: `PUT /repos/{owner}/{repo}/contents/{path}`;
a status other than 200/201 is classified by `checkResponse`. -/
def createFileM (d : DoRes) : Except GoErr Unit :=
  match doRequestM d with
  | Except.error e => Except.error e
  | Except.ok r =>
      if r.statusCode = 200 ∨ r.statusCode = 201 then Except.ok ()
      else
        match checkResponse r with
        | some e => Except.error e
        | none => Except.ok ()

/-- `WorkflowClient.UpdateFile`: like `CreateFile` but the request body also
carries the caller-supplied file SHA; the response handling is identical, so a
409 (stale SHA) falls into the `checkResponse` default case. -/
def updateFileM (d : DoRes) : Except GoErr Unit :=
  match doRequestM d with
  | Except.error e => Except.error e
  | Except.ok r =>
      if r.statusCode = 200 ∨ r.statusCode = 201 then Except.ok ()
      else
        match checkResponse r with
        | some e => Except.error e
        | none => Except.ok ()

/-- `WorkflowClient.CreatePullRequest`: `POST /repos/{owner}/{repo}/pulls`;
any status other than 201 yields
`fmt.Errorf("failed to create pull request: %s", msg)`, otherwise the PR's
HTML URL and number are decoded. -/
def createPullRequestM (d : DoRes) : Except GoErr (GoStr × Int) :=
  match doRequestM d with
  | Except.error e => Except.error e
  | Except.ok r =>
      if r.statusCode = 201 then
        if r.parseOk then Except.ok (r.prHTMLURL, r.prNumber) else Except.error unmarshalErr
      else Except.error (GoErr.plain (("failed to create pull request: ".toList) ++ getErrorMessage r))

/-- `WorkflowClient.GetWorkflowFiles`:
`GET /repos/{owner}/{repo}/contents/.github/workflows`; a 404 is tolerated as
an empty list, other failures are classified by `checkResponse`, and on
success the entries are filtered to `.yml`/`.yaml` files. -/
def getWorkflowFilesM (d : DoRes) : Except GoErr (List ContentEntry) :=
  match doRequestM d with
  | Except.error e => Except.error e
  | Except.ok r =>
      if r.statusCode = 404 then Except.ok []
      else
        match checkResponse r with
        | some e => Except.error e
        | none =>
            if r.parseOk then
              Except.ok (r.entries.filter (fun f =>
                f.typ = ("file".toList) ∧
                  (goHasSuf (".yml".toList) f.name ∨ goHasSuf (".yaml".toList) f.name)))
            else Except.error unmarshalErr

/-- `WorkflowClient.GetFileContent`: `GET /repos/{owner}/{repo}/contents/{path}`,
`checkResponse`, JSON decode, then base64-decode the content field. -/
def getFileContentM (d : DoRes) : Except GoErr (GoStr × GoStr) :=
  match doRequestM d with
  | Except.error e => Except.error e
  | Except.ok r =>
      match checkResponse r with
      | some e => Except.error e
      | none =>
          if r.parseOk then
            if r.b64Ok then Except.ok (r.fileText, r.fileSHA)
            else Except.error (GoErr.wrap ("failed to decode file content".toList) (GoErr.plain []))
          else Except.error unmarshalErr

/-!
## Request model (internal/domain/workflow/models.go)
-/

/-- The deployment type is a Go string type; these are its two constants. -/
def dtEC2 : GoStr := ("ec2".toList)

def dtKubernetes : GoStr := ("kubernetes".toList)

structure Project where
  id : GoStr
  name : GoStr
  dockerContextPath : GoStr
  dockerfilePath : GoStr
  dotEnvTesting : GoStr
  dotEnvProduction : GoStr
deriving DecidableEq, Repr

structure EC2CommonFields where
  credentialID : GoStr
  awsRegion : GoStr
  jenkinsJobs : GoStr
  releaseTag : GoStr
  codeownersEmails : GoStr
  devopsStakeholdersEmails : GoStr
deriving DecidableEq, Repr

structure EC2Project where
  id : GoStr
  name : GoStr
  command : GoStr
  port : GoStr
  dockerNetwork : GoStr
  mountPath : GoStr
  enableGPU : Bool
  logDriver : GoStr
  logDriverOptions : GoStr
deriving DecidableEq, Repr

structure KubernetesCommonFields where
  jenkinsJobName : GoStr
  releaseTag : GoStr
  helmValuesRepository : GoStr
  codeownersEmailIds : GoStr
  devopsStakeholdersEmailIds : GoStr
deriving DecidableEq, Repr

structure KubernetesProject where
  id : GoStr
  name : GoStr
deriving DecidableEq, Repr

structure Request where
  owner : GoStr
  repository : GoStr
  workflowName : GoStr
  deploymentType : GoStr
  projects : List Project
  ec2CommonFields : Option EC2CommonFields
  ec2Projects : List EC2Project
  kubernetesCommonFields : Option KubernetesCommonFields
  kubernetesProjects : List KubernetesProject
deriving DecidableEq, Repr

/-- `Request.Validate`: per-type required-field-group checks; any deployment
type other than the two known constants falls through to `nil`. -/
def validateM (r : Request) : Option GoErr :=
  if r.deploymentType = dtEC2 then
    if r.ec2CommonFields = none then some GoErr.errEC2CommonFieldsRequired
    else if r.ec2Projects = [] then some GoErr.errEC2ProjectsRequired
    else none
  else if r.deploymentType = dtKubernetes then
    if r.kubernetesCommonFields = none then some GoErr.errKubernetesCommonFieldsRequired
    else if r.kubernetesProjects = [] then some GoErr.errKubernetesProjectsRequired
    else none
  else none

/-- `isValidWorkflowName`: the name matches `^[a-zA-Z0-9_-]+$` and has length
between 1 and 255. -/
def isValidWorkflowNameM (name : GoStr) : Bool :=
  name.all (fun c => c.isAlphanum || c = '_' || c = '-') &&
    decide (name ≠ []) && decide (name.length ≤ 255)

/-!
## Template renderer (internal/infrastructure/template)

The two workflow templates are static `text/template` strings; their
expansion on a request is embedded as explicit string concatenation.  Literal
braces of the rendered output (the template's `{{"{{"}}` / `{{"}}"}}`) are
written with hexadecimal escapes.  A `{{range}}` body becomes a `List.map`
followed by `flatten`; a `{{if .Field}}` on a string field tests for the
empty string, and on a bool field tests the bool, exactly as `text/template`
truthiness does.
-/

/-- The `indent` helper of `NewBaseGenerator`: split at newlines, prefix every
non-empty line with `spaces` spaces, and join back.  (The Go code takes an
`int`; it is only ever called with the non-negative literal 8.) -/
def indentFn (spaces : Nat) (text : GoStr) : GoStr :=
  goJoin ((goLines text).map (fun line =>
    if line = [] then line else List.replicate spaces ' ' ++ line))

/-- The matrix flow-sequence interior
`{{range $i, $p := ...}}{{if $i}}, {{end}}{{$p.Name}}{{end}}`: the names
joined by `", "`. -/
def matrixInner : List GoStr → GoStr
  | [] => []
  | [n] => n
  | n :: ns => n ++ (", ".toList) ++ matrixInner ns

/-- One `{{range .Projects}}` body of the build job:
`dot_env_file_testing: |` followed by the dot-env text indented by 8. -/
def ec2DotEnvBlock (p : Project) : GoStr :=
  ("      dot_env_file_testing: |\n".toList) ++ indentFn 8 p.dotEnvTesting ++ ("\n".toList)

/-- Per-project comment line of the EC2 deploy job. -/
def cmtLine (p : EC2Project) : GoStr :=
  ("      # EC2 specific configuration for ".toList) ++ p.name

def cmdLine (p : EC2Project) : GoStr :=
  ("      command: ".toList) ++ p.command

def portLine (p : EC2Project) : GoStr :=
  ("      port: ".toList) ++ p.port

def dnLine (p : EC2Project) : GoStr :=
  ("      docker_network: ".toList) ++ p.dockerNetwork

def mpLine (p : EC2Project) : GoStr :=
  ("      mount_path: ".toList) ++ p.mountPath

def gpuLine : GoStr :=
  ("      enable_gpu: true".toList)

def ldLine (p : EC2Project) : GoStr :=
  ("      log_driver: ".toList) ++ p.logDriver

def ldoLine (p : EC2Project) : GoStr :=
  ("      log_driver_options: ".toList) ++ p.logDriverOptions

/-- The lines emitted for one EC2 project by the `{{range .EC2Projects}}` body:
comment, `command` and `port` always, then each optional line gated on its own
field (`{{if .DockerNetwork}}`, `{{if .MountPath}}`, `{{if .EnableGPU}}`,
`{{if .LogDriver}}`, `{{if .LogDriverOptions}}`). -/
def ec2DeployLines (p : EC2Project) : List GoStr :=
  [cmtLine p, cmdLine p, portLine p]
    ++ (if p.dockerNetwork = [] then [] else [dnLine p])
    ++ (if p.mountPath = [] then [] else [mpLine p])
    ++ (if p.enableGPU then [gpuLine] else [])
    ++ (if p.logDriver = [] then [] else [ldLine p])
    ++ (if p.logDriverOptions = [] then [] else [ldoLine p])

/-- Join lines with a terminating newline after each. -/
def joinTerm (ls : List GoStr) : GoStr :=
  (ls.map (fun l => l ++ ['\n'])).flatten

/-- The text emitted for one EC2 project by the deploy-job range body. -/
def ec2DeployBlock (p : EC2Project) : GoStr :=
  joinTerm (ec2DeployLines p)

/-- The text of a matrix line up to the opening bracket of its flow sequence. -/
def mLinePre : GoStr := ("        project: [".toList)

/-- The closing bracket of a matrix flow sequence. -/
def sqClose : GoStr := ("]".toList)

def ec2SegA0 : GoStr :=
  ("name: Build & Publish Image (EC2)\n\non:\n  push:\n    tags:\n      - v[0-9]+.[0-9]+.[0-9]+-rc[0-9]+\n      - v[0-9]+.[0-9]+.[0-9]+\n\njobs:\n  build-and-push-dockerimages:\n    strategy:\n      fail-fast: false\n      matrix:\n".toList)

def bSegB1 : GoStr :=
  ("\n    permissions:\n      contents: read\n      packages: write\n    secrets:\n      IMAGE_REGISTRY_PASSWORD: \x7b\x7b secrets.IMAGE_REGISTRY_PASSWORD \x7d\x7d\n\n    uses: Calance-US/calance-workflows/.github/workflows/build.yml@".toList)

def bSegC1 : GoStr :=
  ("\n    with:\n      image_name: ".toList)

def bSegC2 : GoStr :=
  ("-\x7b\x7b matrix.project \x7d\x7d\n      image_registry: \x7b\x7b vars.IMAGE_REGISTRY \x7d\x7d\n      image_registry_username: \x7b\x7b vars.IMAGE_REGISTRY_USERNAME \x7d\x7d\n      docker_context_path: \x7b\x7b matrix.project \x7d\x7d\n      dockerfile_path: ./\x7b\x7b matrix.project \x7d\x7d/Dockerfile\n".toList)

def ec2SegD0 : GoStr :=
  ("\n  deploy-to-ec2:\n    needs: build-and-push-dockerimages\n    strategy:\n      fail-fast: false\n      matrix:\n".toList)

def ec2SegE1 : GoStr :=
  ("\n    permissions:\n      contents: read\n      packages: write\n\n    uses: Calance-US/calance-workflows/.github/workflows/deploy-ec2.yml@".toList)

def ec2SegF1 : GoStr :=
  ("\n    with:\n      repository_name: \x7b\x7b github.event.repository.name \x7d\x7d\n      image_name: ".toList)

def ec2SegF2 : GoStr :=
  ("-\x7b\x7b matrix.project \x7d\x7d\n      image_registry: \x7b\x7b vars.IMAGE_REGISTRY \x7d\x7d\n      version: \x7b\x7b needs.build-and-push-dockerimages.outputs.version \x7d\x7d\n      cluster_environment: \x7b\x7b needs.build-and-push-dockerimages.outputs.cluster_environment \x7d\x7d\n      commit_id: \x7b\x7b needs.build-and-push-dockerimages.outputs.commit_id \x7d\x7d\n      aws_region: ".toList)

def ec2SegF3 : GoStr := ("\n      jenkins_jobs: ".toList)

def ec2SegF4 : GoStr := ("\n      workflows_release: ".toList)

def ec2SegF5 : GoStr := ("\n      codeowners_email_ids: ".toList)

def ec2SegF6 : GoStr := ("\n      devops_stakeholders_email_ids: ".toList)

def ec2SegG : GoStr :=
  ("    secrets:\n      JENKINS_URL: \x7b\x7b secrets.JENKINS_URL \x7d\x7d\n      JENKINS_USER: \x7b\x7b secrets.JENKINS_USER \x7d\x7d\n      JENKINS_TOKEN: \x7b\x7b secrets.JENKINS_TOKEN \x7d\x7d\n      SMTP_PASSWORD: \x7b\x7b secrets.SMTP_PASSWORD \x7d\x7d\n      AWS_CREDENTIALS: \x7b\x7b secrets.AWS_CREDENTIALS \x7d\x7d\n".toList)

/-- The tail of the EC2 document after the deploy-job matrix line: the uses/
with stanza of `deploy-to-ec2`, the per-project configuration blocks, and the
secrets stanza. -/
def ec2DeployTail (r : Request) (cf : EC2CommonFields) : GoStr :=
  ec2SegE1 ++ cf.releaseTag
    ++ ec2SegF1 ++ r.owner ++ ("/".toList) ++ r.repository ++ ec2SegF2
    ++ cf.awsRegion ++ ec2SegF3 ++ cf.jenkinsJobs ++ ec2SegF4 ++ cf.releaseTag
    ++ ec2SegF5 ++ cf.codeownersEmails ++ ec2SegF6 ++ cf.devopsStakeholdersEmails ++ ("\n".toList)
    ++ ((r.ec2Projects.map ec2DeployBlock).flatten)
    ++ ec2SegG

/-- The `deploy-to-ec2` job section of the EC2 document, beginning with the
blank line after the build job. -/
def ec2DeploySec (r : Request) (cf : EC2CommonFields) : GoStr :=
  ec2SegD0 ++ (mLinePre ++ matrixInner (r.ec2Projects.map EC2Project.name) ++ sqClose)
    ++ ec2DeployTail r cf

/-- Everything of the EC2 document after the build-job matrix line. -/
def ec2BuildTail (r : Request) (cf : EC2CommonFields) : GoStr :=
  bSegB1 ++ cf.releaseTag
    ++ bSegC1 ++ r.owner ++ ("/".toList) ++ r.repository ++ bSegC2
    ++ ((r.projects.map ec2DotEnvBlock).flatten)
    ++ ec2DeploySec r cf

/-- The EC2 workflow document rendered by `EC2Generator.Generate` for a
request whose `EC2CommonFields` is `cf`. -/
def ec2Doc (r : Request) (cf : EC2CommonFields) : GoStr :=
  ec2SegA0 ++ (mLinePre ++ matrixInner (r.projects.map Project.name) ++ sqClose)
    ++ ec2BuildTail r cf

/-- `EC2Generator.Generate`: template execution dereferences
`.EC2CommonFields`, so it fails (wrapped by `Execute` as
`failed to execute template`) when that pointer is nil, and otherwise renders
`ec2Doc`. -/
def ec2GenerateM (r : Request) : Except GoErr GoStr :=
  match r.ec2CommonFields with
  | none => Except.error (GoErr.wrap ("failed to execute template".toList) (GoErr.plain []))
  | some cf => Except.ok (ec2Doc r cf)

def k8sSegA0 : GoStr :=
  ("name: Build & Publish Image (Kubernetes)\n\non:\n  push:\n    tags:\n      - v[0-9]+.[0-9]+.[0-9]+-rc[0-9]+\n      - v[0-9]+.[0-9]+.[0-9]+\n\njobs:\n  build-and-push-dockerimages:\n    strategy:\n      fail-fast: false\n      matrix:\n".toList)

def k8sSegD0 : GoStr :=
  ("\n  deploy-to-kubernetes:\n    needs: build-and-push-dockerimages\n    strategy:\n      fail-fast: false\n      matrix:\n".toList)

def k8sSegE1 : GoStr :=
  ("\n    permissions:\n      contents: read\n      packages: write\n\n    uses: Calance-US/calance-workflows/.github/workflows/deploy.yml@".toList)

def k8sSegF1 : GoStr :=
  ("\n    with:\n      repository_name: \x7b\x7b github.event.repository.name \x7d\x7d\n      image_name: ".toList)

def k8sSegF2 : GoStr :=
  ("-\x7b\x7b matrix.project \x7d\x7d\n      release_name: ".toList)

def k8sSegF3 : GoStr :=
  ("-\x7b\x7b matrix.project \x7d\x7d\n      image_registry: \x7b\x7b vars.IMAGE_REGISTRY \x7d\x7d\n      version: \x7b\x7b needs.build-and-push-dockerimages.outputs.version \x7d\x7d\n      cluster_environment: \x7b\x7b needs.build-and-push-dockerimages.outputs.cluster_environment \x7d\x7d\n      commit_id: \x7b\x7b needs.build-and-push-dockerimages.outputs.commit_id \x7d\x7d\n      jenkins_job_name: ".toList)

def k8sSegF4 : GoStr := ("\n      workflows_release: ".toList)

def k8sSegF5 : GoStr := ("\n      helm_values_repository: ".toList)

def k8sSegF6 : GoStr := ("\n      codeowners_email_ids: ".toList)

def k8sSegF7 : GoStr := ("\n      devops_stakeholders_email_ids: ".toList)

def k8sSegG : GoStr :=
  ("\n    secrets:\n      JENKINS_URL: \x7b\x7b secrets.JENKINS_URL \x7d\x7d\n      JENKINS_USER: \x7b\x7b secrets.JENKINS_USER \x7d\x7d\n      JENKINS_TOKEN: \x7b\x7b secrets.JENKINS_TOKEN \x7d\x7d\n      SMTP_PASSWORD: \x7b\x7b secrets.SMTP_PASSWORD \x7d\x7d\n".toList)

/-- The Kubernetes workflow document rendered by
`KubernetesGenerator.Generate` for a request whose `KubernetesCommonFields`
is `cf`.  The deploy job additionally derives
`release_name: {repository}-{matrix.project}`. -/
def k8sDoc (r : Request) (cf : KubernetesCommonFields) : GoStr :=
  k8sSegA0 ++ mLinePre ++ matrixInner (r.projects.map Project.name) ++ sqClose
    ++ bSegB1 ++ cf.releaseTag
    ++ bSegC1 ++ r.owner ++ ("/".toList) ++ r.repository ++ bSegC2
    ++ ((r.projects.map ec2DotEnvBlock).flatten)
    ++ k8sSegD0 ++ mLinePre ++ matrixInner (r.kubernetesProjects.map KubernetesProject.name)
    ++ sqClose ++ k8sSegE1 ++ cf.releaseTag
    ++ k8sSegF1 ++ r.owner ++ ("/".toList) ++ r.repository ++ k8sSegF2
    ++ r.repository ++ k8sSegF3
    ++ cf.jenkinsJobName ++ k8sSegF4 ++ cf.releaseTag
    ++ k8sSegF5 ++ cf.helmValuesRepository
    ++ k8sSegF6 ++ cf.codeownersEmailIds
    ++ k8sSegF7 ++ cf.devopsStakeholdersEmailIds
    ++ k8sSegG

/-- `KubernetesGenerator.Generate`. -/
def k8sGenerateM (r : Request) : Except GoErr GoStr :=
  match r.kubernetesCommonFields with
  | none => Except.error (GoErr.wrap ("failed to execute template".toList) (GoErr.plain []))
  | some cf => Except.ok (k8sDoc r cf)

/-- `Service.GenerateWorkflow`: workflow-name check, then `Request.Validate`,
then the deployment-type dispatch; a generator failure is wrapped as
`fmt.Errorf("%w: %v", ErrTemplateGenerationFailed, err)` (the rendered inner
text is not tracked by the model). -/
def generateWorkflowM (r : Request) : Except GoErr GoStr :=
  if isValidWorkflowNameM r.workflowName then
    match validateM r with
    | some e => Except.error e
    | none =>
        if r.deploymentType = dtEC2 then
          match ec2GenerateM r with
          | Except.ok y => Except.ok y
          | Except.error _ => Except.error (GoErr.wrapMsg GoErr.errTemplateGenerationFailed [])
        else if r.deploymentType = dtKubernetes then
          match k8sGenerateM r with
          | Except.ok y => Except.ok y
          | Except.error _ => Except.error (GoErr.wrapMsg GoErr.errTemplateGenerationFailed [])
        else Except.error GoErr.errInvalidDeploymentType
  else Except.error GoErr.errInvalidWorkflowName

/-!
## Publishing orchestrator (internal/domain/workflow/service.go)

Each service operation is modelled as a function of a scripted gateway
environment (one `DoRes` per potential outgoing call) returning the Go result
together with the ordered list of gateway calls actually performed, with their
arguments.  `time.Now().Unix()` is passed in as the `now` parameter.
-/

inductive Call where
  | verifyRepo (owner repo : GoStr) : Call
  | getDefaultBranch (owner repo : GoStr) : Call
  | getBranchSHA (owner repo branch : GoStr) : Call
  | createBranch (owner repo branchName baseSHA : GoStr) : Call
  | createFile (owner repo path content message branch : GoStr) : Call
  | updateFile (owner repo path content message branch sha : GoStr) : Call
  | createPullRequest (owner repo head base title body : GoStr) : Call
  | getWorkflowFiles (owner repo : GoStr) : Call
  | getFileContent (owner repo path : GoStr) : Call
deriving DecidableEq, Repr

structure CreateEnv where
  verify : DoRes
  defBranch : DoRes
  branchSHA : DoRes
  newBranch : DoRes
  newFile : DoRes
  pullReq : DoRes
deriving Repr

structure UpdateEnv where
  verify : DoRes
  defBranch : DoRes
  branchSHA : DoRes
  newBranch : DoRes
  writeFile : DoRes
  pullReq : DoRes
deriving Repr

/-- `workflow.Response`, restricted to the fields `CreateWorkflow` /
`UpdateWorkflow` actually populate. -/
structure WResponse where
  owner : GoStr
  repository : GoStr
  workflowName : GoStr
  filePath : GoStr
  fileURL : GoStr
  message : GoStr
deriving DecidableEq, Repr

structure UpdateWorkflowRequest where
  owner : GoStr
  repository : GoStr
  filePath : GoStr
  content : GoStr
  sha : GoStr
  commitMessage : GoStr
deriving DecidableEq, Repr

structure FileContentResponse where
  name : GoStr
  path : GoStr
  sha : GoStr
  size : Nat
  content : GoStr
deriving DecidableEq, Repr

/-- `workflow.File`, the read-path record built by `Service.GetWorkflows`. -/
structure WFile where
  name : GoStr
  path : GoStr
  sha : GoStr
  size : Nat
  url : GoStr
  downloadURL : GoStr
deriving DecidableEq, Repr

def wfDir : GoStr := (".github/workflows/".toList)

def sufYml : GoStr := (".yml".toList)

def sufYaml : GoStr := (".yaml".toList)

/-- Branch name of the create path:
`fmt.Sprintf("workflow/%s-%d", workflowName, time.Now().Unix())`. -/
def createBranchNameOf (workflowName : GoStr) (now : Int) : GoStr :=
  ("workflow/".toList) ++ workflowName ++ ("-".toList) ++ intStr now

/-- Branch name of the update path:
`fmt.Sprintf("update-workflow/%s-%d", workflowName, time.Now().Unix())`. -/
def updateBranchNameOf (workflowName : GoStr) (now : Int) : GoStr :=
  ("update-workflow/".toList) ++ workflowName ++ ("-".toList) ++ intStr now

/-- Workflow name derived from a file path on the update path: the last `/`
segment with a `.yml` and then a `.yaml` suffix trimmed. -/
def wfNameOfPath (filePath : GoStr) : GoStr :=
  goTrimSuf (goTrimSuf ((filePath.splitOn '/').getLastD []) sufYml) sufYaml

/-- `Service.CreateWorkflow`: verify repository, resolve default branch,
compute the branch name `workflow/{name}-{unix}`, resolve base SHA, create
branch, write the file at `.github/workflows/{name}.yml`, open the pull
request.  Error wrapping follows the Go code: the verify-repository and
create-file errors are returned as-is, the others are wrapped with a step
context. -/
def createWorkflowM (e : CreateEnv) (owner repo workflowName content : GoStr)
    (now : Int) : Except GoErr WResponse × List Call :=
  let t1 : List Call := [Call.verifyRepo owner repo]
  match verifyRepositoryM e.verify with
  | Except.error err => (Except.error err, t1)
  | Except.ok _ =>
  let t2 := t1 ++ [Call.getDefaultBranch owner repo]
  match getDefaultBranchM e.defBranch with
  | Except.error err =>
      (Except.error (GoErr.wrap ("failed to get default branch".toList) err), t2)
  | Except.ok defaultBranch =>
  let branchName := createBranchNameOf workflowName now
  let t3 := t2 ++ [Call.getBranchSHA owner repo defaultBranch]
  match getBranchSHAM e.branchSHA with
  | Except.error err =>
      (Except.error (GoErr.wrap ("failed to get base branch SHA".toList) err), t3)
  | Except.ok baseSHA =>
  let t4 := t3 ++ [Call.createBranch owner repo branchName baseSHA]
  match createBranchM e.newBranch with
  | Except.error err =>
      (Except.error (GoErr.wrap ("failed to create branch".toList) err), t4)
  | Except.ok _ =>
  let filePath := wfDir ++ workflowName ++ sufYml
  let message := ("Add workflow: ".toList) ++ workflowName
  let t5 := t4 ++ [Call.createFile owner repo filePath content message branchName]
  match createFileM e.newFile with
  | Except.error err => (Except.error err, t5)
  | Except.ok _ =>
  let prTitle := ("Add workflow: ".toList) ++ workflowName
  let prBody := ("This PR adds the GitHub Actions workflow for `".toList) ++ workflowName
    ++ ("`.\n\nGenerated automatically by Calance Workflow Manager.".toList)
  let t6 := t5 ++ [Call.createPullRequest owner repo branchName defaultBranch prTitle prBody]
  match createPullRequestM e.pullReq with
  | Except.error err =>
      (Except.error (GoErr.wrap ("failed to create pull request".toList) err), t6)
  | Except.ok (prURL, prNumber) =>
      (Except.ok
        { owner := owner
          repository := repo
          workflowName := workflowName
          filePath := filePath
          fileURL := prURL
          message := ("Pull request #".toList) ++ intStr prNumber
            ++ (" created for workflow \x27".toList) ++ workflowName ++ ("\x27".toList) },
        t6)

/-- `Service.UpdateWorkflow`: path-shape validation first (prefix
`.github/workflows/`, suffix `.yml`/`.yaml`), then the same six-step publish
sequence with an `update-workflow/{name}-{unix}` branch, a caller-supplied or
defaulted commit message, and `UpdateFile` instead of `CreateFile`. -/
def updateWorkflowM (e : UpdateEnv) (req : UpdateWorkflowRequest)
    (now : Int) : Except GoErr WResponse × List Call :=
  if ¬ goHasPre wfDir req.filePath then
    (Except.error (GoErr.plain ("invalid workflow file path: must be in .github/workflows/".toList)), [])
  else if ¬ (goHasSuf sufYml req.filePath ∨ goHasSuf sufYaml req.filePath) then
    (Except.error (GoErr.plain ("invalid workflow file: must be a .yml or .yaml file".toList)), [])
  else
  let t1 : List Call := [Call.verifyRepo req.owner req.repository]
  match verifyRepositoryM e.verify with
  | Except.error err => (Except.error err, t1)
  | Except.ok _ =>
  let t2 := t1 ++ [Call.getDefaultBranch req.owner req.repository]
  match getDefaultBranchM e.defBranch with
  | Except.error err =>
      (Except.error (GoErr.wrap ("failed to get default branch".toList) err), t2)
  | Except.ok defaultBranch =>
  let workflowName := wfNameOfPath req.filePath
  let branchName := updateBranchNameOf workflowName now
  let t3 := t2 ++ [Call.getBranchSHA req.owner req.repository defaultBranch]
  match getBranchSHAM e.branchSHA with
  | Except.error err =>
      (Except.error (GoErr.wrap ("failed to get base branch SHA".toList) err), t3)
  | Except.ok baseSHA =>
  let t4 := t3 ++ [Call.createBranch req.owner req.repository branchName baseSHA]
  match createBranchM e.newBranch with
  | Except.error err =>
      (Except.error (GoErr.wrap ("failed to create branch".toList) err), t4)
  | Except.ok _ =>
  let message :=
    if req.commitMessage = [] then ("Update workflow: ".toList) ++ workflowName
    else req.commitMessage
  let t5 := t4 ++
    [Call.updateFile req.owner req.repository req.filePath req.content message branchName req.sha]
  match updateFileM e.writeFile with
  | Except.error err =>
      (Except.error (GoErr.wrap ("failed to update file".toList) err), t5)
  | Except.ok _ =>
  let prTitle := ("Update workflow: ".toList) ++ workflowName
  let prBody := ("This PR updates the GitHub Actions workflow `".toList) ++ workflowName
    ++ ("`.\n\nUpdated automatically by Calance Workflow Manager.".toList)
  let t6 := t5 ++
    [Call.createPullRequest req.owner req.repository branchName defaultBranch prTitle prBody]
  match createPullRequestM e.pullReq with
  | Except.error err =>
      (Except.error (GoErr.wrap ("failed to create pull request".toList) err), t6)
  | Except.ok (prURL, prNumber) =>
      (Except.ok
        { owner := req.owner
          repository := req.repository
          workflowName := workflowName
          filePath := req.filePath
          fileURL := prURL
          message := ("Pull request #".toList) ++ intStr prNumber
            ++ (" created for workflow \x27".toList) ++ workflowName
            ++ ("\x27 update".toList) },
        t6)

/-- `Service.GetWorkflowContent`: the same path-shape validation before any
network call, then one `GetFileContent` gateway call whose failure is wrapped
as `failed to fetch file content`. -/
def getWorkflowContentM (d : DoRes) (owner repo filePath : GoStr) :
    Except GoErr FileContentResponse × List Call :=
  if ¬ goHasPre wfDir filePath then
    (Except.error (GoErr.plain ("invalid workflow file path: must be in .github/workflows/".toList)), [])
  else if ¬ (goHasSuf sufYml filePath ∨ goHasSuf sufYaml filePath) then
    (Except.error (GoErr.plain ("invalid workflow file: must be a .yml or .yaml file".toList)), [])
  else
    match getFileContentM d with
    | Except.error err =>
        (Except.error (GoErr.wrap ("failed to fetch file content".toList) err),
         [Call.getFileContent owner repo filePath])
    | Except.ok (content, sha) =>
        (Except.ok
          { name := (filePath.splitOn '/').getLastD []
            path := filePath
            sha := sha
            size := content.length
            content := content },
         [Call.getFileContent owner repo filePath])

/-- `Service.GetWorkflows`: list the workflow files and repackage them as
`workflow.File` records. -/
def getWorkflowsM (d : DoRes) : Except GoErr (List WFile) :=
  match getWorkflowFilesM d with
  | Except.error err => Except.error err
  | Except.ok cs =>
      Except.ok (cs.map (fun c =>
        { name := c.name
          path := c.path
          sha := c.sha
          size := c.size
          url := c.htmlURL
          downloadURL := c.downloadURL }))

/-!
## Spec-side notions and concrete inputs

`flowEntryCount` is the number of entries of a YAML flow sequence whose
interior text is `inner`, for interiors built from comma-free scalar items:
an empty interior is the empty sequence, otherwise each comma separates two
entries.  The remaining definitions are concrete inputs used by witnesses and
counterexamples.
-/

def flowEntryCount (inner : GoStr) : Nat :=
  if inner = [] then 0 else inner.count ',' + 1

def baseResp : HttpResp :=
  { statusCode := 200
    body := []
    parseOk := true
    defaultBranch := []
    refSHA := []
    prHTMLURL := []
    prNumber := 0
    entries := []
    fileText := []
    fileSHA := []
    b64Ok := true }

def respOK200 : HttpResp :=
  { baseResp with defaultBranch := ("main".toList), refSHA := ("abc123".toList) }

def resp201 : HttpResp :=
  { baseResp with
      statusCode := 201
      prHTMLURL := ("https://github.com/acme/svc/pull/7".toList)
      prNumber := 7 }

def resp404 : HttpResp :=
  { baseResp with statusCode := 404, body := ("Not Found".toList) }

def resp409 : HttpResp :=
  { baseResp with statusCode := 409, body := ("conflict: sha mismatch".toList) }

def envAllOkC : CreateEnv :=
  { verify := DoRes.resp respOK200
    defBranch := DoRes.resp respOK200
    branchSHA := DoRes.resp respOK200
    newBranch := DoRes.resp resp201
    newFile := DoRes.resp resp201
    pullReq := DoRes.resp resp201 }

/-- Scenario of an empty repository: the repository lookup succeeds but the
branch-ref lookup returns 404. -/
def envEmptyRepo : CreateEnv :=
  { envAllOkC with branchSHA := DoRes.resp resp404 }

def envAllOkU : UpdateEnv :=
  { verify := DoRes.resp respOK200
    defBranch := DoRes.resp respOK200
    branchSHA := DoRes.resp respOK200
    newBranch := DoRes.resp resp201
    writeFile := DoRes.resp resp201
    pullReq := DoRes.resp resp201 }

/-- Scenario of a stale-SHA update: the file write returns 409. -/
def envStaleSha : UpdateEnv :=
  { envAllOkU with writeFile := DoRes.resp resp409 }

def resp401 : HttpResp :=
  { baseResp with statusCode := 401, body := ("Bad credentials".toList) }

/-- Scenario of an unauthorized update: the repository verification fails. -/
def envU401 : UpdateEnv :=
  { envAllOkU with verify := DoRes.resp resp401 }

def exProjClean : Project :=
  { id := ("1".toList)
    name := ("api".toList)
    dockerContextPath := ("api".toList)
    dockerfilePath := ("./api/Dockerfile".toList)
    dotEnvTesting := ("KEY=value".toList)
    dotEnvProduction := [] }

/-- A project whose name contains a comma, which is accepted by every
validation step. -/
def exProjComma : Project :=
  { exProjClean with name := ("a, b".toList) }

def exCf : EC2CommonFields :=
  { credentialID := ("cred-1".toList)
    awsRegion := ("us-east-1".toList)
    jenkinsJobs := ("deploy-job".toList)
    releaseTag := ("v1".toList)
    codeownersEmails := ("owners@acme.io".toList)
    devopsStakeholdersEmails := ("devops@acme.io".toList) }

def exEc2Proj : EC2Project :=
  { id := ("1".toList)
    name := ("api".toList)
    command := ("./run".toList)
    port := ("8080".toList)
    dockerNetwork := []
    mountPath := []
    enableGPU := false
    logDriver := []
    logDriverOptions := [] }

def exEc2ProjGpu : EC2Project :=
  { exEc2Proj with id := ("2".toList), name := ("worker".toList), enableGPU := true }

/-- A valid EC2 request whose single project has a comma in its name. -/
def exReqComma : Request :=
  { owner := ("acme".toList)
    repository := ("svc".toList)
    workflowName := ("deploy-1".toList)
    deploymentType := dtEC2
    projects := [exProjComma]
    ec2CommonFields := some exCf
    ec2Projects := [exEc2Proj]
    kubernetesCommonFields := none
    kubernetesProjects := [] }

/-- A valid EC2 request with two EC2 projects, only the second of which has
`enableGPU` set. -/
def exReqTwo : Request :=
  { exReqComma with projects := [exProjClean], ec2Projects := [exEc2Proj, exEc2ProjGpu] }

/-- An update request whose file path passes the prefix/suffix check while
escaping the workflows directory through `..` segments. -/
def exUReqTraversal : UpdateWorkflowRequest :=
  { owner := ("acme".toList)
    repository := ("svc".toList)
    filePath := (".github/workflows/../../evil.yml".toList)
    content := ("x".toList)
    sha := ("oldsha".toList)
    commitMessage := [] }

def exUReqGood : UpdateWorkflowRequest :=
  { exUReqTraversal with filePath := (".github/workflows/deploy-1.yml".toList) }

/-- A request whose deployment type is neither known constant. -/
def exReqUnknownType : Request :=
  { exReqComma with deploymentType := ("lambda".toList), ec2CommonFields := none, ec2Projects := [] }

/-- An update request whose path is outside the workflows directory. -/
def exUReqWrongDir : UpdateWorkflowRequest :=
  { exUReqTraversal with filePath := ("evil.yml".toList) }

/-- Whether a gateway call is the pull-request creation. -/
def isPRCall : Call → Bool
  | Call.createPullRequest _ _ _ _ _ _ => true
  | _ => false

/-!
## Theorems
-/

/-- Splitting at newlines inverts joining with newlines, for a non-empty list
of newline-free lines. -/
theorem goLines_goJoin (ls : List GoStr) (hne : ls ≠ []) (h : ∀ l ∈ ls, '\n' ∉ l) :
    goLines (goJoin ls) = ls := by
  unfold goLines goJoin
  exact List.splitOn_intercalate ls '\n' h hne

/-- C6: for every indent width `n` and every text given by its list of
newline-free lines, the indent helper leaves empty lines unchanged and
prefixes every non-empty line with `n` spaces; the witness instantiates the
particular three-line case with an empty middle line. -/
theorem claimC6Indent (n : Nat) (ls : List GoStr) (hne : ls ≠ []) (h : ∀ l ∈ ls, '\n' ∉ l) :
    goLines (indentFn n (goJoin ls)) =
      ls.map (fun l => if l = [] then l else List.replicate n ' ' ++ l) := by
  unfold indentFn
  rw [goLines_goJoin ls hne h]
  apply goLines_goJoin
  · simp [hne]
  · intro l hl
    simp only [List.mem_map] at hl
    obtain ⟨a, ha, rfl⟩ := hl
    by_cases hae : a = []
    · simp [hae]
    · simp only [hae, if_neg, ite_false, List.mem_append]
      rintro (hmem | hmem)
      · exact absurd (List.eq_of_mem_replicate hmem) (by decide)
      · exact h a ha hmem

/-- Witness for C6: indenting the three-line text `a\n\nb` by 4 leaves the
middle line empty and prefixes exactly lines 1 and 3 with four spaces. -/
theorem claimC6Indent_witness :
    goLines (indentFn 4 ("a\n\nb".toList)) = [("    a".toList), ([] : GoStr), ("    b".toList)] := by
  have h := claimC6Indent 4 [("a".toList), ([] : GoStr), ("b".toList)] (by decide) (by decide)
  have hj : goJoin [("a".toList), ([] : GoStr), ("b".toList)] = ("a\n\nb".toList) := by decide
  rw [hj] at h
  rw [h]
  decide

/-- C7: on the read path a 404 from the workflows-directory listing is
reported as an empty list, not an error, both by the gateway client
(`GetWorkflowFiles`) and by the service (`GetWorkflows`). -/
theorem claimC7EmptyOn404 (r : HttpResp) (h : r.statusCode = 404) :
    getWorkflowFilesM (DoRes.resp r) = Except.ok [] ∧
      getWorkflowsM (DoRes.resp r) = Except.ok [] := by
  constructor
  · simp [getWorkflowFilesM, doRequestM, h]
  · simp [getWorkflowsM, getWorkflowFilesM, doRequestM, h]

/-- Witness for C7 at a concrete 404 response. -/
theorem claimC7EmptyOn404_witness :
    getWorkflowFilesM (DoRes.resp resp404) = Except.ok [] ∧
      getWorkflowsM (DoRes.resp resp404) = Except.ok [] :=
  claimC7EmptyOn404 resp404 (by decide)

/-- C10: a request whose deployment type is neither `ec2` nor `kubernetes`
passes `Request.Validate` (all required-field-group checks are skipped), and
the invalid-deployment-type rejection only happens in `GenerateWorkflow`'s
dispatch, after the workflow-name check and `Validate` have both passed — in
particular an invalid name is still reported as an invalid name, not as an
invalid deployment type. -/
theorem claimC10UnknownType (r : Request) (h1 : r.deploymentType ≠ dtEC2)
    (h2 : r.deploymentType ≠ dtKubernetes) :
    validateM r = none ∧
      (isValidWorkflowNameM r.workflowName = true →
        generateWorkflowM r = Except.error GoErr.errInvalidDeploymentType) ∧
      (isValidWorkflowNameM r.workflowName = false →
        generateWorkflowM r = Except.error GoErr.errInvalidWorkflowName) := by
  refine ⟨?_, ?_, ?_⟩
  · simp [validateM, h1, h2]
  · intro hn
    simp [generateWorkflowM, validateM, h1, h2, hn]
  · intro hn
    simp [generateWorkflowM, hn]

/-- Witness for C10 at a concrete request with deployment type `lambda`. -/
theorem claimC10UnknownType_witness :
    validateM exReqUnknownType = none ∧
      generateWorkflowM exReqUnknownType = Except.error GoErr.errInvalidDeploymentType := by
  have h := claimC10UnknownType exReqUnknownType (by decide) (by decide)
  exact ⟨h.1, h.2.1 (by decide)⟩

/-- C1 (amended): when the repository was verified to exist and the default
branch was resolved, a 404 from the branch-ref lookup makes `CreateWorkflow`
return the generic not-found sentinel wrapped with the
`failed to get base branch SHA` step context — an error that still satisfies
`errors.Is(err, ErrNotFound)`, there being no dedicated empty-repository
error value — and no branch-create or later step is attempted. -/
theorem claimC1EmptyRepo (e : CreateEnv) (owner repo wname content : GoStr) (now : Int)
    (r : HttpResp) (db : GoStr)
    (h1 : verifyRepositoryM e.verify = Except.ok ())
    (h2 : getDefaultBranchM e.defBranch = Except.ok db)
    (h3 : e.branchSHA = DoRes.resp r) (h4 : r.statusCode = 404) :
    createWorkflowM e owner repo wname content now =
      (Except.error (GoErr.wrap ("failed to get base branch SHA".toList) GoErr.notFound),
       [Call.verifyRepo owner repo, Call.getDefaultBranch owner repo,
        Call.getBranchSHA owner repo db]) ∧
      errIs (GoErr.wrap ("failed to get base branch SHA".toList) GoErr.notFound)
        GoErr.notFound = true := by
  constructor
  · have hsha : getBranchSHAM e.branchSHA = Except.error GoErr.notFound := by
      simp [getBranchSHAM, doRequestM, h3, checkResponse, isSuccess, h4]
    simp [createWorkflowM, h1, h2, hsha]
  · decide

/-- Counterexample for C1 as stated: in the empty-repository scenario the
error returned is the generic `ErrNotFound` (wrapped with step context), so
there is no empty-repository condition distinguishable from the generic
not-found. -/
theorem claimC1EmptyRepo_counterexample :
    (createWorkflowM envEmptyRepo ("acme".toList) ("svc".toList) ("deploy-1".toList)
        ("yaml: 1".toList) 1700000000).1 =
      Except.error (GoErr.wrap ("failed to get base branch SHA".toList) GoErr.notFound) ∧
      errIs (GoErr.wrap ("failed to get base branch SHA".toList) GoErr.notFound)
        GoErr.notFound = true := by
  decide

/-- Witness for C1 at a concrete scripted gateway. -/
theorem claimC1EmptyRepo_witness :
    createWorkflowM envEmptyRepo ("acme".toList) ("svc".toList) ("w".toList) ("c".toList) 1 =
      (Except.error (GoErr.wrap ("failed to get base branch SHA".toList) GoErr.notFound),
       [Call.verifyRepo ("acme".toList) ("svc".toList),
        Call.getDefaultBranch ("acme".toList) ("svc".toList),
        Call.getBranchSHA ("acme".toList) ("svc".toList) ("main".toList)]) :=
  (claimC1EmptyRepo envEmptyRepo ("acme".toList) ("svc".toList) ("w".toList) ("c".toList) 1
    resp404 ("main".toList) (by decide) (by decide) rfl (by decide)).1

/-- C2 (amended): an update whose file write comes back 409 (stale SHA) fails
at the write-file step with the generic `ErrAPIFailed` catch-all carrying the
upstream status and body, wrapped with the `failed to update file` context —
not a dedicated conflict error value — and no pull request is created. -/
theorem claimC2StaleSha (e : UpdateEnv) (req : UpdateWorkflowRequest) (now : Int)
    (r : HttpResp) (db sha : GoStr)
    (hpre : goHasPre wfDir req.filePath = true)
    (hsuf : goHasSuf sufYml req.filePath = true ∨ goHasSuf sufYaml req.filePath = true)
    (h1 : verifyRepositoryM e.verify = Except.ok ())
    (h2 : getDefaultBranchM e.defBranch = Except.ok db)
    (h3 : getBranchSHAM e.branchSHA = Except.ok sha)
    (h4 : createBranchM e.newBranch = Except.ok ())
    (h5 : e.writeFile = DoRes.resp r) (h6 : r.statusCode = 409) :
    updateWorkflowM e req now =
      (Except.error (GoErr.wrap ("failed to update file".toList)
          (GoErr.wrapMsg GoErr.apiFailed (getErrorMessage r))),
       [Call.verifyRepo req.owner req.repository,
        Call.getDefaultBranch req.owner req.repository,
        Call.getBranchSHA req.owner req.repository db,
        Call.createBranch req.owner req.repository
          (updateBranchNameOf (wfNameOfPath req.filePath) now) sha,
        Call.updateFile req.owner req.repository req.filePath req.content
          (if req.commitMessage = [] then
            ("Update workflow: ".toList) ++ wfNameOfPath req.filePath
           else req.commitMessage)
          (updateBranchNameOf (wfNameOfPath req.filePath) now) req.sha]) ∧
      errIs (GoErr.wrapMsg GoErr.apiFailed (getErrorMessage r)) GoErr.apiFailed = true ∧
      ((updateWorkflowM e req now).2.any isPRCall) = false := by
  have hwf : updateFileM e.writeFile =
      Except.error (GoErr.wrapMsg GoErr.apiFailed (getErrorMessage r)) := by
    simp [updateFileM, doRequestM, h5, checkResponse, isSuccess, h6]
  have hmain : updateWorkflowM e req now =
      (Except.error (GoErr.wrap ("failed to update file".toList)
          (GoErr.wrapMsg GoErr.apiFailed (getErrorMessage r))),
       [Call.verifyRepo req.owner req.repository,
        Call.getDefaultBranch req.owner req.repository,
        Call.getBranchSHA req.owner req.repository db,
        Call.createBranch req.owner req.repository
          (updateBranchNameOf (wfNameOfPath req.filePath) now) sha,
        Call.updateFile req.owner req.repository req.filePath req.content
          (if req.commitMessage = [] then
            ("Update workflow: ".toList) ++ wfNameOfPath req.filePath
           else req.commitMessage)
          (updateBranchNameOf (wfNameOfPath req.filePath) now) req.sha]) := by
    simp [updateWorkflowM, hpre, hsuf, h1, h2, h3, h4, hwf]
  refine ⟨hmain, ?_, ?_⟩
  · simp [errIs]
  · rw [hmain]
    simp [isPRCall]

/-- Counterexample for C2 as stated: on a concrete stale-SHA update the
write-file error satisfies `errors.Is(err, ErrAPIFailed)` — it is the generic
API error, not a distinct conflict condition. -/
theorem claimC2StaleSha_counterexample :
    (updateWorkflowM envStaleSha exUReqGood 1700000000).1 =
      Except.error (GoErr.wrap ("failed to update file".toList)
        (GoErr.wrapMsg GoErr.apiFailed (getErrorMessage resp409))) ∧
      errIs (GoErr.wrapMsg GoErr.apiFailed (getErrorMessage resp409)) GoErr.apiFailed = true ∧
      ((updateWorkflowM envStaleSha exUReqGood 1700000000).2.any isPRCall) = false := by
  decide

/-- Witness for C2 at a concrete scripted gateway. -/
theorem claimC2StaleSha_witness :
    errIs (GoErr.wrapMsg GoErr.apiFailed (getErrorMessage resp409)) GoErr.apiFailed = true ∧
      ((updateWorkflowM envStaleSha exUReqGood 7).2.any isPRCall) = false :=
  ⟨(claimC2StaleSha envStaleSha exUReqGood 7 resp409 ("main".toList) ("abc123".toList)
      (by decide) (by decide) (by decide) (by decide) (by decide) (by decide) rfl (by decide)).2.1,
   (claimC2StaleSha envStaleSha exUReqGood 7 resp409 ("main".toList) ("abc123".toList)
      (by decide) (by decide) (by decide) (by decide) (by decide) (by decide) rfl (by decide)).2.2⟩

/-- C5 (amended): a file path that lacks the `.github/workflows/` prefix or
the `.yml`/`.yaml` suffix makes `UpdateWorkflow` and `GetWorkflowContent`
fail before any gateway call; paths that carry the prefix and suffix pass
this purely syntactic check even when `..` segments escape the directory
(see the counterexample). -/
theorem claimC5PathValidation (e : UpdateEnv) (d : DoRes) (req : UpdateWorkflowRequest)
    (owner repo path : GoStr) (now : Int) :
    (¬ (goHasPre wfDir req.filePath = true ∧
        (goHasSuf sufYml req.filePath = true ∨ goHasSuf sufYaml req.filePath = true)) →
      ∃ m, updateWorkflowM e req now = (Except.error (GoErr.plain m), [])) ∧
    (¬ (goHasPre wfDir path = true ∧
        (goHasSuf sufYml path = true ∨ goHasSuf sufYaml path = true)) →
      ∃ m, getWorkflowContentM d owner repo path = (Except.error (GoErr.plain m), [])) := by
  constructor
  · intro h
    by_cases hp : goHasPre wfDir req.filePath = true
    · have hs : ¬ (goHasSuf sufYml req.filePath = true ∨ goHasSuf sufYaml req.filePath = true) :=
        fun hs => h ⟨hp, hs⟩
      exact ⟨("invalid workflow file: must be a .yml or .yaml file".toList),
        by simp [updateWorkflowM, hp, hs]⟩
    · exact ⟨("invalid workflow file path: must be in .github/workflows/".toList),
        by simp [updateWorkflowM, hp]⟩
  · intro h
    by_cases hp : goHasPre wfDir path = true
    · have hs : ¬ (goHasSuf sufYml path = true ∨ goHasSuf sufYaml path = true) :=
        fun hs => h ⟨hp, hs⟩
      exact ⟨("invalid workflow file: must be a .yml or .yaml file".toList),
        by simp [getWorkflowContentM, hp, hs]⟩
    · exact ⟨("invalid workflow file path: must be in .github/workflows/".toList),
        by simp [getWorkflowContentM, hp]⟩

/-- Counterexample for C5 as stated: the traversal target
`.github/workflows/../../evil.yml` passes the prefix/suffix validation and
the update proceeds to call the gateway (its first call is the repository
verification), instead of failing before any network call. -/
theorem claimC5PathValidation_counterexample :
    goHasPre wfDir exUReqTraversal.filePath = true ∧
      goHasSuf sufYml exUReqTraversal.filePath = true ∧
      (updateWorkflowM envAllOkU exUReqTraversal 1700000000).2.head? =
        some (Call.verifyRepo ("acme".toList) ("svc".toList)) := by
  decide

/-- Witness for C5 at a concrete wrong-directory path. -/
theorem claimC5PathValidation_witness :
    ∃ m, updateWorkflowM envAllOkU exUReqWrongDir 5 = (Except.error (GoErr.plain m), []) :=
  (claimC5PathValidation envAllOkU (DoRes.resp resp404) exUReqWrongDir [] [] [] 5).1 (by decide)

/-- C4: each step of the publish sequence, on both the create and the update
path, aborts the sequence on failure: the gateway calls performed are exactly
the steps up to and including the failing one (each once, in order), and the
failing step's error — enriched with the step context exactly where the Go
code wraps it — is returned. -/
theorem claimC4FailFast (e : CreateEnv) (owner repo wname content : GoStr) (now : Int)
    (ue : UpdateEnv) (ureq : UpdateWorkflowRequest) (err : GoErr)
    (hpre : goHasPre wfDir ureq.filePath = true)
    (hsuf : goHasSuf sufYml ureq.filePath = true ∨ goHasSuf sufYaml ureq.filePath = true) :
    (verifyRepositoryM e.verify = Except.error err →
      createWorkflowM e owner repo wname content now =
        (Except.error err, [Call.verifyRepo owner repo])) ∧
    (verifyRepositoryM e.verify = Except.ok () →
      getDefaultBranchM e.defBranch = Except.error err →
      createWorkflowM e owner repo wname content now =
        (Except.error (GoErr.wrap ("failed to get default branch".toList) err),
         [Call.verifyRepo owner repo, Call.getDefaultBranch owner repo])) ∧
    (∀ db, verifyRepositoryM e.verify = Except.ok () →
      getDefaultBranchM e.defBranch = Except.ok db →
      getBranchSHAM e.branchSHA = Except.error err →
      createWorkflowM e owner repo wname content now =
        (Except.error (GoErr.wrap ("failed to get base branch SHA".toList) err),
         [Call.verifyRepo owner repo, Call.getDefaultBranch owner repo,
          Call.getBranchSHA owner repo db])) ∧
    (∀ db sha, verifyRepositoryM e.verify = Except.ok () →
      getDefaultBranchM e.defBranch = Except.ok db →
      getBranchSHAM e.branchSHA = Except.ok sha →
      createBranchM e.newBranch = Except.error err →
      createWorkflowM e owner repo wname content now =
        (Except.error (GoErr.wrap ("failed to create branch".toList) err),
         [Call.verifyRepo owner repo, Call.getDefaultBranch owner repo,
          Call.getBranchSHA owner repo db,
          Call.createBranch owner repo (createBranchNameOf wname now) sha])) ∧
    (∀ db sha, verifyRepositoryM e.verify = Except.ok () →
      getDefaultBranchM e.defBranch = Except.ok db →
      getBranchSHAM e.branchSHA = Except.ok sha →
      createBranchM e.newBranch = Except.ok () →
      createFileM e.newFile = Except.error err →
      createWorkflowM e owner repo wname content now =
        (Except.error err,
         [Call.verifyRepo owner repo, Call.getDefaultBranch owner repo,
          Call.getBranchSHA owner repo db,
          Call.createBranch owner repo (createBranchNameOf wname now) sha,
          Call.createFile owner repo (wfDir ++ wname ++ sufYml) content
            (("Add workflow: ".toList) ++ wname) (createBranchNameOf wname now)])) ∧
    (∀ db sha, verifyRepositoryM e.verify = Except.ok () →
      getDefaultBranchM e.defBranch = Except.ok db →
      getBranchSHAM e.branchSHA = Except.ok sha →
      createBranchM e.newBranch = Except.ok () →
      createFileM e.newFile = Except.ok () →
      createPullRequestM e.pullReq = Except.error err →
      createWorkflowM e owner repo wname content now =
        (Except.error (GoErr.wrap ("failed to create pull request".toList) err),
         [Call.verifyRepo owner repo, Call.getDefaultBranch owner repo,
          Call.getBranchSHA owner repo db,
          Call.createBranch owner repo (createBranchNameOf wname now) sha,
          Call.createFile owner repo (wfDir ++ wname ++ sufYml) content
            (("Add workflow: ".toList) ++ wname) (createBranchNameOf wname now),
          Call.createPullRequest owner repo (createBranchNameOf wname now) db
            (("Add workflow: ".toList) ++ wname)
            (("This PR adds the GitHub Actions workflow for `".toList) ++ wname
              ++ ("`.\n\nGenerated automatically by Calance Workflow Manager.".toList))])) ∧
    (verifyRepositoryM ue.verify = Except.error err →
      updateWorkflowM ue ureq now =
        (Except.error err, [Call.verifyRepo ureq.owner ureq.repository])) ∧
    (verifyRepositoryM ue.verify = Except.ok () →
      getDefaultBranchM ue.defBranch = Except.error err →
      updateWorkflowM ue ureq now =
        (Except.error (GoErr.wrap ("failed to get default branch".toList) err),
         [Call.verifyRepo ureq.owner ureq.repository,
          Call.getDefaultBranch ureq.owner ureq.repository])) ∧
    (∀ db, verifyRepositoryM ue.verify = Except.ok () →
      getDefaultBranchM ue.defBranch = Except.ok db →
      getBranchSHAM ue.branchSHA = Except.error err →
      updateWorkflowM ue ureq now =
        (Except.error (GoErr.wrap ("failed to get base branch SHA".toList) err),
         [Call.verifyRepo ureq.owner ureq.repository,
          Call.getDefaultBranch ureq.owner ureq.repository,
          Call.getBranchSHA ureq.owner ureq.repository db])) ∧
    (∀ db sha, verifyRepositoryM ue.verify = Except.ok () →
      getDefaultBranchM ue.defBranch = Except.ok db →
      getBranchSHAM ue.branchSHA = Except.ok sha →
      createBranchM ue.newBranch = Except.error err →
      updateWorkflowM ue ureq now =
        (Except.error (GoErr.wrap ("failed to create branch".toList) err),
         [Call.verifyRepo ureq.owner ureq.repository,
          Call.getDefaultBranch ureq.owner ureq.repository,
          Call.getBranchSHA ureq.owner ureq.repository db,
          Call.createBranch ureq.owner ureq.repository
            (updateBranchNameOf (wfNameOfPath ureq.filePath) now) sha])) ∧
    (∀ db sha, verifyRepositoryM ue.verify = Except.ok () →
      getDefaultBranchM ue.defBranch = Except.ok db →
      getBranchSHAM ue.branchSHA = Except.ok sha →
      createBranchM ue.newBranch = Except.ok () →
      updateFileM ue.writeFile = Except.error err →
      updateWorkflowM ue ureq now =
        (Except.error (GoErr.wrap ("failed to update file".toList) err),
         [Call.verifyRepo ureq.owner ureq.repository,
          Call.getDefaultBranch ureq.owner ureq.repository,
          Call.getBranchSHA ureq.owner ureq.repository db,
          Call.createBranch ureq.owner ureq.repository
            (updateBranchNameOf (wfNameOfPath ureq.filePath) now) sha,
          Call.updateFile ureq.owner ureq.repository ureq.filePath ureq.content
            (if ureq.commitMessage = [] then
              ("Update workflow: ".toList) ++ wfNameOfPath ureq.filePath
             else ureq.commitMessage)
            (updateBranchNameOf (wfNameOfPath ureq.filePath) now) ureq.sha])) ∧
    (∀ db sha, verifyRepositoryM ue.verify = Except.ok () →
      getDefaultBranchM ue.defBranch = Except.ok db →
      getBranchSHAM ue.branchSHA = Except.ok sha →
      createBranchM ue.newBranch = Except.ok () →
      updateFileM ue.writeFile = Except.ok () →
      createPullRequestM ue.pullReq = Except.error err →
      updateWorkflowM ue ureq now =
        (Except.error (GoErr.wrap ("failed to create pull request".toList) err),
         [Call.verifyRepo ureq.owner ureq.repository,
          Call.getDefaultBranch ureq.owner ureq.repository,
          Call.getBranchSHA ureq.owner ureq.repository db,
          Call.createBranch ureq.owner ureq.repository
            (updateBranchNameOf (wfNameOfPath ureq.filePath) now) sha,
          Call.updateFile ureq.owner ureq.repository ureq.filePath ureq.content
            (if ureq.commitMessage = [] then
              ("Update workflow: ".toList) ++ wfNameOfPath ureq.filePath
             else ureq.commitMessage)
            (updateBranchNameOf (wfNameOfPath ureq.filePath) now) ureq.sha,
          Call.createPullRequest ureq.owner ureq.repository
            (updateBranchNameOf (wfNameOfPath ureq.filePath) now) db
            (("Update workflow: ".toList) ++ wfNameOfPath ureq.filePath)
            (("This PR updates the GitHub Actions workflow `".toList)
              ++ wfNameOfPath ureq.filePath
              ++ ("`.\n\nUpdated automatically by Calance Workflow Manager.".toList))])) := by
  refine ⟨?_, ?_, ?_, ?_, ?_, ?_, ?_, ?_, ?_, ?_, ?_, ?_⟩
  · intro h1
    simp [createWorkflowM, h1]
  · intro h1 h2
    simp [createWorkflowM, h1, h2]
  · intro db h1 h2 h3
    simp [createWorkflowM, h1, h2, h3]
  · intro db sha h1 h2 h3 h4
    simp [createWorkflowM, h1, h2, h3, h4]
  · intro db sha h1 h2 h3 h4 h5
    simp [createWorkflowM, h1, h2, h3, h4, h5]
  · intro db sha h1 h2 h3 h4 h5 h6
    simp [createWorkflowM, h1, h2, h3, h4, h5, h6]
  · intro h1
    simp [updateWorkflowM, hpre, hsuf, h1]
  · intro h1 h2
    simp [updateWorkflowM, hpre, hsuf, h1, h2]
  · intro db h1 h2 h3
    simp [updateWorkflowM, hpre, hsuf, h1, h2, h3]
  · intro db sha h1 h2 h3 h4
    simp [updateWorkflowM, hpre, hsuf, h1, h2, h3, h4]
  · intro db sha h1 h2 h3 h4 h5
    simp [updateWorkflowM, hpre, hsuf, h1, h2, h3, h4, h5]
  · intro db sha h1 h2 h3 h4 h5 h6
    simp [updateWorkflowM, hpre, hsuf, h1, h2, h3, h4, h5, h6]

/-- Witness for C4: on a concrete gateway failing at base-SHA resolution the
create path stops after three calls, and on one whose repository verification
is rejected the update path stops after one call. -/
theorem claimC4FailFast_witness :
    createWorkflowM envEmptyRepo ("o".toList) ("r".toList) ("w".toList) ("c".toList) 2 =
      (Except.error (GoErr.wrap ("failed to get base branch SHA".toList) GoErr.notFound),
       [Call.verifyRepo ("o".toList) ("r".toList),
        Call.getDefaultBranch ("o".toList) ("r".toList),
        Call.getBranchSHA ("o".toList) ("r".toList) ("main".toList)]) ∧
      updateWorkflowM envU401 exUReqGood 2 =
        (Except.error GoErr.unauthorized,
         [Call.verifyRepo ("acme".toList) ("svc".toList)]) :=
  ⟨(claimC4FailFast envEmptyRepo ("o".toList) ("r".toList) ("w".toList) ("c".toList) 2
      envU401 exUReqGood GoErr.notFound (by decide) (by decide)).2.2.1
      ("main".toList) (by decide) (by decide) (by decide),
   (claimC4FailFast envEmptyRepo ("o".toList) ("r".toList) ("w".toList) ("c".toList) 2
      envU401 exUReqGood GoErr.unauthorized (by decide) (by decide)).2.2.2.2.2.2.1
      (by decide)⟩

/-- C8: whenever the publish sequence issues its branch-creation call, the
branch it creates is named exactly `workflow/{workflowName}-{unixTimestamp}`
on the create path and `update-workflow/{workflowName}-{unixTimestamp}` on
the update path, for the invocation's Unix time `now`. -/
theorem claimC8BranchName (e : CreateEnv) (ue : UpdateEnv)
    (owner repo wname content : GoStr) (now : Int)
    (ureq : UpdateWorkflowRequest) (o2 r2 b sha : GoStr) :
    (Call.createBranch o2 r2 b sha ∈ (createWorkflowM e owner repo wname content now).2 →
      b = createBranchNameOf wname now) ∧
    (Call.createBranch o2 r2 b sha ∈ (updateWorkflowM ue ureq now).2 →
      b = updateBranchNameOf (wfNameOfPath ureq.filePath) now) := by
  constructor
  · intro hmem
    rcases hv : verifyRepositoryM e.verify with e1 | u1
    · simp [createWorkflowM, hv] at hmem
    · rcases hd : getDefaultBranchM e.defBranch with e2 | db
      · simp [createWorkflowM, hv, hd] at hmem
      · rcases hs : getBranchSHAM e.branchSHA with e3 | sh
        · simp [createWorkflowM, hv, hd, hs] at hmem
        · rcases hb : createBranchM e.newBranch with e4 | u4
          · simp [createWorkflowM, hv, hd, hs, hb] at hmem
            exact hmem.2.2.1
          · rcases hf : createFileM e.newFile with e5 | u5
            · simp [createWorkflowM, hv, hd, hs, hb, hf] at hmem
              exact hmem.2.2.1
            · rcases hp : createPullRequestM e.pullReq with e6 | pr
              · simp [createWorkflowM, hv, hd, hs, hb, hf, hp] at hmem
                exact hmem.2.2.1
              · simp [createWorkflowM, hv, hd, hs, hb, hf, hp] at hmem
                exact hmem.2.2.1
  · intro hmem
    by_cases hpre : goHasPre wfDir ureq.filePath = true
    · by_cases hsuf : goHasSuf sufYml ureq.filePath = true ∨ goHasSuf sufYaml ureq.filePath = true
      · rcases hv : verifyRepositoryM ue.verify with e1 | u1
        · simp [updateWorkflowM, hpre, hsuf, hv] at hmem
        · rcases hd : getDefaultBranchM ue.defBranch with e2 | db
          · simp [updateWorkflowM, hpre, hsuf, hv, hd] at hmem
          · rcases hs : getBranchSHAM ue.branchSHA with e3 | sh
            · simp [updateWorkflowM, hpre, hsuf, hv, hd, hs] at hmem
            · rcases hb : createBranchM ue.newBranch with e4 | u4
              · simp [updateWorkflowM, hpre, hsuf, hv, hd, hs, hb] at hmem
                exact hmem.2.2.1
              · rcases hf : updateFileM ue.writeFile with e5 | u5
                · simp [updateWorkflowM, hpre, hsuf, hv, hd, hs, hb, hf] at hmem
                  exact hmem.2.2.1
                · rcases hp : createPullRequestM ue.pullReq with e6 | pr
                  · simp [updateWorkflowM, hpre, hsuf, hv, hd, hs, hb, hf, hp] at hmem
                    exact hmem.2.2.1
                  · simp [updateWorkflowM, hpre, hsuf, hv, hd, hs, hb, hf, hp] at hmem
                    exact hmem.2.2.1
      · simp [updateWorkflowM, hpre, hsuf] at hmem
    · simp [updateWorkflowM, hpre] at hmem

/-- Witness for C8: on a successful concrete create run the branch-creation
call in the trace carries exactly the `workflow/{name}-{timestamp}` branch
name. -/
theorem claimC8BranchName_witness :
    Call.createBranch ("o".toList) ("r".toList) ("workflow/w-3".toList) ("abc123".toList) ∈
        (createWorkflowM envAllOkC ("o".toList) ("r".toList) ("w".toList) ("c".toList) 3).2 ∧
      ("workflow/w-3".toList) = createBranchNameOf ("w".toList) 3 :=
  ⟨by decide,
   (claimC8BranchName envAllOkC envAllOkU ("o".toList) ("r".toList) ("w".toList) ("c".toList) 3
      exUReqGood ("o".toList) ("r".toList) ("workflow/w-3".toList) ("abc123".toList)).1
     (by decide)⟩

/-- A comma-free name contributes no comma to the matrix interior: the only
commas of `matrixInner names` are the separators, one fewer than the names. -/
theorem count_matrixInner (names : List GoStr) (h : ∀ n ∈ names, ',' ∉ n) :
    List.count ',' (matrixInner names) = names.length - 1 := by
  induction names with
  | nil => simp [matrixInner]
  | cons n ns ih =>
    cases ns with
    | nil =>
      simp only [matrixInner, List.length_cons, List.length_nil]
      exact List.count_eq_zero.mpr (h n (List.mem_cons_self n []))
    | cons m t =>
      have hn : List.count ',' n = 0 :=
        List.count_eq_zero.mpr (h n (List.mem_cons_self n (m :: t)))
      have ht := ih (fun x hx => h x (List.mem_cons_of_mem n hx))
      simp only [matrixInner, List.count_append, hn, ht]
      simp [List.count_cons]
      omega

/-- The matrix interior of a non-empty list of non-empty names is non-empty. -/
theorem matrixInner_ne_nil (names : List GoStr) (hne : names ≠ [])
    (hnn : ∀ n ∈ names, n ≠ []) : matrixInner names ≠ [] := by
  cases names with
  | nil => exact absurd rfl hne
  | cons n ns =>
    cases ns with
    | nil => exact hnn n (List.mem_cons_self n [])
    | cons m t =>
      simp only [matrixInner, ne_eq, List.append_eq_nil]
      intro hc
      exact hnn n (List.mem_cons_self n (m :: t)) hc.1.1

/-- C3 (amended): for a valid EC2 request whose project names are non-empty
and comma-free, the rendered document carries the two matrix lines (each an
infix of the output), and their flow sequences have exactly `len(projects)`
and `len(ec2Projects)` entries respectively.  (Whole-document YAML validity
is not claimed: the counterexample's comma-carrying name already breaks the
entry count, and unescaped interpolation breaks parseability in general.) -/
theorem claimC3MatrixCounts (r : Request) (cf : EC2CommonFields)
    (hcf : r.ec2CommonFields = some cf)
    (hb : ∀ p ∈ r.projects, Project.name p ≠ [] ∧ ',' ∉ Project.name p)
    (hd : ∀ p ∈ r.ec2Projects, EC2Project.name p ≠ [] ∧ ',' ∉ EC2Project.name p)
    (hbne : r.projects ≠ []) (hdne : r.ec2Projects ≠ []) :
    ec2GenerateM r = Except.ok (ec2Doc r cf) ∧
      (mLinePre ++ matrixInner (r.projects.map Project.name) ++ sqClose) <:+: ec2Doc r cf ∧
      (mLinePre ++ matrixInner (r.ec2Projects.map EC2Project.name) ++ sqClose) <:+:
        ec2Doc r cf ∧
      flowEntryCount (matrixInner (r.projects.map Project.name)) = r.projects.length ∧
      flowEntryCount (matrixInner (r.ec2Projects.map EC2Project.name)) =
        r.ec2Projects.length := by
  refine ⟨by simp [ec2GenerateM, hcf], ?_, ?_, ?_, ?_⟩
  · unfold ec2Doc
    exact List.infix_append _ _ _
  · have h1 : (mLinePre ++ matrixInner (r.ec2Projects.map EC2Project.name) ++ sqClose) <:+:
        ec2DeploySec r cf := by
      unfold ec2DeploySec
      exact List.infix_append _ _ _
    have h2 : ec2DeploySec r cf <:+ ec2BuildTail r cf := by
      unfold ec2BuildTail
      exact List.suffix_append _ _
    have h3 : ec2BuildTail r cf <:+ ec2Doc r cf := by
      unfold ec2Doc
      exact List.suffix_append _ _
    exact h1.trans (h2.isInfix.trans h3.isInfix)
  · have hne : r.projects.map Project.name ≠ [] := by
      simp [List.map_eq_nil_iff, hbne]
    have hinner : matrixInner (r.projects.map Project.name) ≠ [] := by
      apply matrixInner_ne_nil _ hne
      intro n hn
      obtain ⟨p, hp, rfl⟩ := List.mem_map.mp hn
      exact (hb p hp).1
    have hcnt : List.count ',' (matrixInner (r.projects.map Project.name)) =
        (r.projects.map Project.name).length - 1 := by
      apply count_matrixInner
      intro n hn
      obtain ⟨p, hp, rfl⟩ := List.mem_map.mp hn
      exact (hb p hp).2
    have hlen : r.projects.length ≥ 1 := by
      cases hx : r.projects with
      | nil => exact absurd hx hbne
      | cons a t => simp
    unfold flowEntryCount
    rw [if_neg hinner, hcnt]
    simp only [List.length_map]
    omega
  · have hne : r.ec2Projects.map EC2Project.name ≠ [] := by
      simp [List.map_eq_nil_iff, hdne]
    have hinner : matrixInner (r.ec2Projects.map EC2Project.name) ≠ [] := by
      apply matrixInner_ne_nil _ hne
      intro n hn
      obtain ⟨p, hp, rfl⟩ := List.mem_map.mp hn
      exact (hd p hp).1
    have hcnt : List.count ',' (matrixInner (r.ec2Projects.map EC2Project.name)) =
        (r.ec2Projects.map EC2Project.name).length - 1 := by
      apply count_matrixInner
      intro n hn
      obtain ⟨p, hp, rfl⟩ := List.mem_map.mp hn
      exact (hd p hp).2
    have hlen : r.ec2Projects.length ≥ 1 := by
      cases hx : r.ec2Projects with
      | nil => exact absurd hx hdne
      | cons a t => simp
    unfold flowEntryCount
    rw [if_neg hinner, hcnt]
    simp only [List.length_map]
    omega

/-- Counterexample for C3 as stated: the request `exReqComma` passes the
workflow-name check and `Request.Validate`, yet its single project is named
`a, b`, so the build matrix flow sequence of the rendered output has two
entries, not `len(projects) = 1`. -/
theorem claimC3MatrixCounts_counterexample :
    isValidWorkflowNameM exReqComma.workflowName = true ∧
      validateM exReqComma = none ∧
      exReqComma.deploymentType = dtEC2 ∧
      exReqComma.projects.length = 1 ∧
      flowEntryCount (matrixInner (exReqComma.projects.map Project.name)) = 2 ∧
      ec2GenerateM exReqComma = Except.ok (ec2Doc exReqComma exCf) ∧
      (mLinePre ++ matrixInner (exReqComma.projects.map Project.name) ++ sqClose) <:+:
        ec2Doc exReqComma exCf := by
  refine ⟨by decide, by decide, by decide, by decide, by decide, rfl, ?_⟩
  unfold ec2Doc
  exact List.infix_append _ _ _

/-- Witness for C3 at a concrete comma-free request with one build project
and two EC2 projects. -/
theorem claimC3MatrixCounts_witness :
    flowEntryCount (matrixInner (exReqTwo.projects.map Project.name)) = 1 ∧
      flowEntryCount (matrixInner (exReqTwo.ec2Projects.map EC2Project.name)) = 2 :=
  ⟨(claimC3MatrixCounts exReqTwo exCf (by decide) (by decide) (by decide) (by decide)
      (by decide)).2.2.2.1,
   (claimC3MatrixCounts exReqTwo exCf (by decide) (by decide) (by decide) (by decide)
      (by decide)).2.2.2.2⟩

/-- Two strings differing at some position are different. -/
theorem lineNe (x y : GoStr) (k : Nat) (h : x[k]? ≠ y[k]?) : x ≠ y :=
  fun he => h (by rw [he])

theorem dnNeCmt (p q : EC2Project) : dnLine p ≠ cmtLine q := by
  apply lineNe _ _ 6
  unfold dnLine cmtLine
  rw [List.getElem?_append_left (by decide), List.getElem?_append_left (by decide)]
  decide

theorem dnNeCmd (p q : EC2Project) : dnLine p ≠ cmdLine q := by
  apply lineNe _ _ 6
  unfold dnLine cmdLine
  rw [List.getElem?_append_left (by decide), List.getElem?_append_left (by decide)]
  decide

theorem dnNePort (p q : EC2Project) : dnLine p ≠ portLine q := by
  apply lineNe _ _ 6
  unfold dnLine portLine
  rw [List.getElem?_append_left (by decide), List.getElem?_append_left (by decide)]
  decide

theorem dnNeMp (p q : EC2Project) : dnLine p ≠ mpLine q := by
  apply lineNe _ _ 6
  unfold dnLine mpLine
  rw [List.getElem?_append_left (by decide), List.getElem?_append_left (by decide)]
  decide

theorem dnNeGpu (p : EC2Project) : dnLine p ≠ gpuLine := by
  apply lineNe _ _ 6
  unfold dnLine gpuLine
  rw [List.getElem?_append_left (by decide)]
  decide

theorem dnNeLd (p q : EC2Project) : dnLine p ≠ ldLine q := by
  apply lineNe _ _ 6
  unfold dnLine ldLine
  rw [List.getElem?_append_left (by decide), List.getElem?_append_left (by decide)]
  decide

theorem dnNeLdo (p q : EC2Project) : dnLine p ≠ ldoLine q := by
  apply lineNe _ _ 6
  unfold dnLine ldoLine
  rw [List.getElem?_append_left (by decide), List.getElem?_append_left (by decide)]
  decide

theorem mpNeCmt (p q : EC2Project) : mpLine p ≠ cmtLine q := by
  apply lineNe _ _ 6
  unfold mpLine cmtLine
  rw [List.getElem?_append_left (by decide), List.getElem?_append_left (by decide)]
  decide

theorem mpNeCmd (p q : EC2Project) : mpLine p ≠ cmdLine q := by
  apply lineNe _ _ 6
  unfold mpLine cmdLine
  rw [List.getElem?_append_left (by decide), List.getElem?_append_left (by decide)]
  decide

theorem mpNePort (p q : EC2Project) : mpLine p ≠ portLine q := by
  apply lineNe _ _ 6
  unfold mpLine portLine
  rw [List.getElem?_append_left (by decide), List.getElem?_append_left (by decide)]
  decide

theorem mpNeGpu (p : EC2Project) : mpLine p ≠ gpuLine := by
  apply lineNe _ _ 6
  unfold mpLine gpuLine
  rw [List.getElem?_append_left (by decide)]
  decide

theorem mpNeLd (p q : EC2Project) : mpLine p ≠ ldLine q := by
  apply lineNe _ _ 6
  unfold mpLine ldLine
  rw [List.getElem?_append_left (by decide), List.getElem?_append_left (by decide)]
  decide

theorem mpNeLdo (p q : EC2Project) : mpLine p ≠ ldoLine q := by
  apply lineNe _ _ 6
  unfold mpLine ldoLine
  rw [List.getElem?_append_left (by decide), List.getElem?_append_left (by decide)]
  decide

theorem gpuNeCmt (q : EC2Project) : gpuLine ≠ cmtLine q := by
  apply lineNe _ _ 6
  unfold gpuLine cmtLine
  rw [List.getElem?_append_left (by decide)]
  decide

theorem gpuNeCmd (q : EC2Project) : gpuLine ≠ cmdLine q := by
  apply lineNe _ _ 6
  unfold gpuLine cmdLine
  rw [List.getElem?_append_left (by decide)]
  decide

theorem gpuNePort (q : EC2Project) : gpuLine ≠ portLine q := by
  apply lineNe _ _ 6
  unfold gpuLine portLine
  rw [List.getElem?_append_left (by decide)]
  decide

theorem gpuNeLd (q : EC2Project) : gpuLine ≠ ldLine q := by
  apply lineNe _ _ 6
  unfold gpuLine ldLine
  rw [List.getElem?_append_left (by decide)]
  decide

theorem gpuNeLdo (q : EC2Project) : gpuLine ≠ ldoLine q := by
  apply lineNe _ _ 6
  unfold gpuLine ldoLine
  rw [List.getElem?_append_left (by decide)]
  decide

theorem ldNeCmt (p q : EC2Project) : ldLine p ≠ cmtLine q := by
  apply lineNe _ _ 6
  unfold ldLine cmtLine
  rw [List.getElem?_append_left (by decide), List.getElem?_append_left (by decide)]
  decide

theorem ldNeCmd (p q : EC2Project) : ldLine p ≠ cmdLine q := by
  apply lineNe _ _ 6
  unfold ldLine cmdLine
  rw [List.getElem?_append_left (by decide), List.getElem?_append_left (by decide)]
  decide

theorem ldNePort (p q : EC2Project) : ldLine p ≠ portLine q := by
  apply lineNe _ _ 6
  unfold ldLine portLine
  rw [List.getElem?_append_left (by decide), List.getElem?_append_left (by decide)]
  decide

theorem ldNeLdo (p q : EC2Project) : ldLine p ≠ ldoLine q := by
  apply lineNe _ _ 16
  unfold ldLine ldoLine
  rw [List.getElem?_append_left (by decide), List.getElem?_append_left (by decide)]
  decide

theorem ldoNeCmt (p q : EC2Project) : ldoLine p ≠ cmtLine q := by
  apply lineNe _ _ 6
  unfold ldoLine cmtLine
  rw [List.getElem?_append_left (by decide), List.getElem?_append_left (by decide)]
  decide

theorem ldoNeCmd (p q : EC2Project) : ldoLine p ≠ cmdLine q := by
  apply lineNe _ _ 6
  unfold ldoLine cmdLine
  rw [List.getElem?_append_left (by decide), List.getElem?_append_left (by decide)]
  decide

theorem ldoNePort (p q : EC2Project) : ldoLine p ≠ portLine q := by
  apply lineNe _ _ 6
  unfold ldoLine portLine
  rw [List.getElem?_append_left (by decide), List.getElem?_append_left (by decide)]
  decide

theorem mem_ite_nil (x y : GoStr) (c : Prop) [Decidable c] :
    (x ∈ if c then ([] : List GoStr) else [y]) ↔ ¬ c ∧ x = y := by
  split_ifs with hc <;> simp [hc]

theorem mem_ite_cons (x y : GoStr) (c : Prop) [Decidable c] :
    (x ∈ if c then [y] else ([] : List GoStr)) ↔ c ∧ x = y := by
  split_ifs with hc <;> simp [hc]

/-- The `docker_network` line is emitted in a project's deploy block exactly
when the project's `dockerNetwork` field is non-empty. -/
theorem dnMemIff (p : EC2Project) :
    dnLine p ∈ ec2DeployLines p ↔ p.dockerNetwork ≠ [] := by
  constructor
  · intro hmem
    simp only [ec2DeployLines, List.mem_append, List.mem_cons, List.mem_singleton,
      mem_ite_nil, mem_ite_cons, List.not_mem_nil, or_false, false_or] at hmem
    rcases hmem with (((((h | h | h) | ⟨hne, _⟩) | ⟨_, h⟩) | ⟨_, h⟩) | ⟨_, h⟩) | ⟨_, h⟩
    · exact absurd h (dnNeCmt p p)
    · exact absurd h (dnNeCmd p p)
    · exact absurd h (dnNePort p p)
    · exact hne
    · exact absurd h (dnNeMp p p)
    · exact absurd h (dnNeGpu p)
    · exact absurd h (dnNeLd p p)
    · exact absurd h (dnNeLdo p p)
  · intro h
    simp [ec2DeployLines, h]

/-- The `mount_path` line is emitted exactly when `mountPath` is non-empty. -/
theorem mpMemIff (p : EC2Project) :
    mpLine p ∈ ec2DeployLines p ↔ p.mountPath ≠ [] := by
  constructor
  · intro hmem
    simp only [ec2DeployLines, List.mem_append, List.mem_cons, List.mem_singleton,
      mem_ite_nil, mem_ite_cons, List.not_mem_nil, or_false, false_or] at hmem
    rcases hmem with (((((h | h | h) | ⟨_, h⟩) | ⟨hne, _⟩) | ⟨_, h⟩) | ⟨_, h⟩) | ⟨_, h⟩
    · exact absurd h (mpNeCmt p p)
    · exact absurd h (mpNeCmd p p)
    · exact absurd h (mpNePort p p)
    · exact absurd h.symm (dnNeMp p p)
    · exact hne
    · exact absurd h (mpNeGpu p)
    · exact absurd h (mpNeLd p p)
    · exact absurd h (mpNeLdo p p)
  · intro h
    simp [ec2DeployLines, h]

/-- The `enable_gpu: true` line is emitted exactly when `enableGPU` is set. -/
theorem gpuMemIff (p : EC2Project) :
    gpuLine ∈ ec2DeployLines p ↔ p.enableGPU = true := by
  constructor
  · intro hmem
    simp only [ec2DeployLines, List.mem_append, List.mem_cons, List.mem_singleton,
      mem_ite_nil, mem_ite_cons, List.not_mem_nil, or_false, false_or] at hmem
    rcases hmem with (((((h | h | h) | ⟨_, h⟩) | ⟨_, h⟩) | ⟨hg, _⟩) | ⟨_, h⟩) | ⟨_, h⟩
    · exact absurd h (gpuNeCmt p)
    · exact absurd h (gpuNeCmd p)
    · exact absurd h (gpuNePort p)
    · exact absurd h.symm (dnNeGpu p)
    · exact absurd h.symm (mpNeGpu p)
    · exact hg
    · exact absurd h (gpuNeLd p)
    · exact absurd h (gpuNeLdo p)
  · intro h
    simp [ec2DeployLines, h]

/-- The `log_driver` line is emitted exactly when `logDriver` is non-empty. -/
theorem ldMemIff (p : EC2Project) :
    ldLine p ∈ ec2DeployLines p ↔ p.logDriver ≠ [] := by
  constructor
  · intro hmem
    simp only [ec2DeployLines, List.mem_append, List.mem_cons, List.mem_singleton,
      mem_ite_nil, mem_ite_cons, List.not_mem_nil, or_false, false_or] at hmem
    rcases hmem with (((((h | h | h) | ⟨_, h⟩) | ⟨_, h⟩) | ⟨_, h⟩) | ⟨hne, _⟩) | ⟨_, h⟩
    · exact absurd h (ldNeCmt p p)
    · exact absurd h (ldNeCmd p p)
    · exact absurd h (ldNePort p p)
    · exact absurd h.symm (dnNeLd p p)
    · exact absurd h.symm (mpNeLd p p)
    · exact absurd h.symm (gpuNeLd p)
    · exact hne
    · exact absurd h (ldNeLdo p p)
  · intro h
    simp [ec2DeployLines, h]

/-- The `log_driver_options` line is emitted exactly when `logDriverOptions`
is non-empty. -/
theorem ldoMemIff (p : EC2Project) :
    ldoLine p ∈ ec2DeployLines p ↔ p.logDriverOptions ≠ [] := by
  constructor
  · intro hmem
    simp only [ec2DeployLines, List.mem_append, List.mem_cons, List.mem_singleton,
      mem_ite_nil, mem_ite_cons, List.not_mem_nil, or_false, false_or] at hmem
    rcases hmem with (((((h | h | h) | ⟨_, h⟩) | ⟨_, h⟩) | ⟨_, h⟩) | ⟨_, h⟩) | ⟨hne, _⟩
    · exact absurd h (ldoNeCmt p p)
    · exact absurd h (ldoNeCmd p p)
    · exact absurd h (ldoNePort p p)
    · exact absurd h.symm (dnNeLdo p p)
    · exact absurd h.symm (mpNeLdo p p)
    · exact absurd h.symm (gpuNeLdo p)
    · exact absurd h.symm (ldNeLdo p p)
    · exact hne
  · intro h
    simp [ec2DeployLines, h]

/-- A member's image under `f` is an infix of the flattened map. -/
theorem infix_flatten_map {α : Type} (f : α → GoStr) (l : List α) (p : α) (hp : p ∈ l) :
    f p <:+: (l.map f).flatten := by
  induction l with
  | nil => cases hp
  | cons a t ih =>
    rcases List.mem_cons.mp hp with rfl | h
    · simp only [List.map_cons, List.flatten_cons]
      exact (List.prefix_append _ _).isInfix
    · simp only [List.map_cons, List.flatten_cons]
      exact (ih h).trans (List.suffix_append _ _).isInfix

/-- The deploy block of every EC2 project of a request is an infix of the
rendered EC2 document. -/
theorem deployBlockInfix (r : Request) (cf : EC2CommonFields) (p : EC2Project)
    (hp : p ∈ r.ec2Projects) : ec2DeployBlock p <:+: ec2Doc r cf := by
  have h1 : ec2DeployBlock p <:+: ((r.ec2Projects.map ec2DeployBlock).flatten) :=
    infix_flatten_map _ _ _ hp
  have h2 : ((r.ec2Projects.map ec2DeployBlock).flatten) <:+: ec2DeployTail r cf := by
    unfold ec2DeployTail
    exact List.infix_append _ _ _
  have h3 : ec2DeployTail r cf <:+ ec2DeploySec r cf := by
    unfold ec2DeploySec
    exact List.suffix_append _ _
  have h4 : ec2DeploySec r cf <:+ ec2BuildTail r cf := by
    unfold ec2BuildTail
    exact List.suffix_append _ _
  have h5 : ec2BuildTail r cf <:+ ec2Doc r cf := by
    unfold ec2Doc
    exact List.suffix_append _ _
  exact (h1.trans h2).trans (h3.isInfix.trans (h4.isInfix.trans h5.isInfix))

/-- C9 (amended): for every EC2 project of a valid request, the rendered
output contains that project's deploy configuration block, whose lines always
include the `command` and `port` lines and include the `docker_network`,
`mount_path`, `enable_gpu: true`, `log_driver` and `log_driver_options` lines
each if and only if the project's corresponding optional field is non-empty
(or true for `enableGPU`), each gate independent of the others.  The
containment of each conditional line is scoped to the project's own block:
over the whole document it can also be produced by another project's block
(see the counterexample). -/
theorem claimC9DeployGates (r : Request) (cf : EC2CommonFields) (p : EC2Project)
    (hcf : r.ec2CommonFields = some cf) (hp : p ∈ r.ec2Projects) :
    ec2GenerateM r = Except.ok (ec2Doc r cf) ∧
      ec2DeployBlock p <:+: ec2Doc r cf ∧
      ec2DeployBlock p = joinTerm (ec2DeployLines p) ∧
      cmdLine p ∈ ec2DeployLines p ∧
      portLine p ∈ ec2DeployLines p ∧
      (dnLine p ∈ ec2DeployLines p ↔ p.dockerNetwork ≠ []) ∧
      (mpLine p ∈ ec2DeployLines p ↔ p.mountPath ≠ []) ∧
      (gpuLine ∈ ec2DeployLines p ↔ p.enableGPU = true) ∧
      (ldLine p ∈ ec2DeployLines p ↔ p.logDriver ≠ []) ∧
      (ldoLine p ∈ ec2DeployLines p ↔ p.logDriverOptions ≠ []) := by
  refine ⟨by simp [ec2GenerateM, hcf], deployBlockInfix r cf p hp, rfl, ?_, ?_,
    dnMemIff p, mpMemIff p, gpuMemIff p, ldMemIff p, ldoMemIff p⟩
  · simp [ec2DeployLines]
  · simp [ec2DeployLines]

/-- Counterexample for C9 as stated over the whole rendered output: in
`exReqTwo` the first EC2 project has `enableGPU = false`, yet the rendered
document does contain an `enable_gpu: true` line (emitted by the second
project's block), so whole-output containment is not equivalent to that
project's own field. -/
theorem claimC9DeployGates_counterexample :
    exEc2Proj ∈ exReqTwo.ec2Projects ∧
      exEc2Proj.enableGPU = false ∧
      ec2GenerateM exReqTwo = Except.ok (ec2Doc exReqTwo exCf) ∧
      (("\n".toList) ++ gpuLine ++ ("\n".toList)) <:+: ec2Doc exReqTwo exCf := by
  refine ⟨by decide, by decide, rfl, ?_⟩
  have hdec : ec2DeployBlock exEc2ProjGpu =
      ("      # EC2 specific configuration for worker\n      command: ./run\n      port: 8080".toList)
        ++ (("\n".toList) ++ gpuLine ++ ("\n".toList)) := by
    decide
  have hb : (("\n".toList) ++ gpuLine ++ ("\n".toList)) <:+: ec2DeployBlock exEc2ProjGpu := by
    rw [hdec]
    exact (List.suffix_append _ _).isInfix
  exact hb.trans (deployBlockInfix exReqTwo exCf exEc2ProjGpu (by decide))

/-- Witness for C9: for the GPU-enabled project of `exReqTwo` its block is in
the rendered document and carries the `enable_gpu: true` line. -/
theorem claimC9DeployGates_witness :
    ec2DeployBlock exEc2ProjGpu <:+: ec2Doc exReqTwo exCf ∧
      gpuLine ∈ ec2DeployLines exEc2ProjGpu :=
  ⟨(claimC9DeployGates exReqTwo exCf exEc2ProjGpu (by decide) (by decide)).2.1,
   ((claimC9DeployGates exReqTwo exCf exEc2ProjGpu (by decide)
      (by decide)).2.2.2.2.2.2.2.1).mpr rfl⟩

end CalanceWorkflow
